import Mathlib

/-!
Verification of the glados/cufft plan wrapper (src/include/glados/cufft/plan.h)
and the ddrf CUDA coordinate helpers (src/include/ddrf/cuda/coordinates.h).

The C++ code is shallowly embedded: the cuFFT element types and transform
kinds become finite inductive types, the compile-time dispatch tables
(detail::type_chooser, detail::type_mapper, the cufft_exec overload sets)
become Lean functions, the plan handle becomes a structure over its two data
members, and every member function becomes a Lean function returning the new
state together with the list of native cuFFT calls its body performs.
-/

/-- The four cuFFT element types that appear as template arguments of
`plan::execute`: cufftReal (float), cufftComplex, cufftDoubleReal (double),
cufftDoubleComplex. -/
inductive CType where
  | cufftReal
  | cufftComplex
  | cufftDoubleReal
  | cufftDoubleComplex
  deriving DecidableEq

/-- The six cuFFT transform kinds (the `cufftType` enum of cufft.h) used as
the template argument of `plan` and as the values of `detail::type_chooser`. -/
inductive cufftType where
  | CUFFT_R2C
  | CUFFT_C2R
  | CUFFT_C2C
  | CUFFT_D2Z
  | CUFFT_Z2D
  | CUFFT_Z2Z
  deriving DecidableEq

/-- `typedef int cufftHandle` of cufft.h. -/
abbrev cufftHandle := Int

/-- `cufftResult` status codes are modelled by their numeric values from the
cufft.h enum. -/
abbrev cufftResult := Nat

def CUFFT_SUCCESS : cufftResult := 0

def CUFFT_INVALID_PLAN : cufftResult := 1

def CUFFT_ALLOC_FAILED : cufftResult := 2

def CUFFT_INVALID_TYPE : cufftResult := 3

def CUFFT_INVALID_VALUE : cufftResult := 4

def CUFFT_INTERNAL_ERROR : cufftResult := 5

def CUFFT_EXEC_FAILED : cufftResult := 6

def CUFFT_SETUP_FAILED : cufftResult := 7

def CUFFT_INVALID_SIZE : cufftResult := 8

/-- Modelled from the spec: the exception taxonomy of glados/cufft/exception.h
(the header is not under src/; plan.h throws `invalid_argument`, `bad_alloc`
and `runtime_error` from it). Per the spec there are exactly three error
kinds: invalid-argument, allocation-failure and runtime-error, the first and
last carrying a human-readable description. -/
inductive cufftException where
  | invalid_argument (what : String)
  | bad_alloc
  | runtime_error (what : String)
  deriving DecidableEq

/-- `plan::handle_result` (plan.h lines 133-150): inspects a native status and
either returns silently (modelled as `none`) or throws the corresponding
exception (modelled as `some e`). The C++ `switch` becomes a chain of
equality tests with the `default` arm last. -/
def handle_result (res : cufftResult) : Option cufftException :=
  if res = CUFFT_SUCCESS then none
  else if res = CUFFT_INVALID_PLAN then
    some (.invalid_argument "The plan parameter is not a valid handle.")
  else if res = CUFFT_ALLOC_FAILED then some .bad_alloc
  else if res = CUFFT_INVALID_VALUE then
    some (.invalid_argument "One or more invalid parameters were passed to the API.")
  else if res = CUFFT_INTERNAL_ERROR then
    some (.runtime_error "An internal driver error was detected.")
  else if res = CUFFT_EXEC_FAILED then
    some (.runtime_error "cuFFT failed to execute the transform on the GPU.")
  else if res = CUFFT_SETUP_FAILED then
    some (.runtime_error "The cuFFT library failed to initialize.")
  else if res = CUFFT_INVALID_SIZE then
    some (.invalid_argument "One or more of the parameters is not a supported size.")
  else some (.runtime_error "Unknown error.")

/-- `detail::type_chooser<I, O>` (plan.h lines 40-46): the six specializations
carry a `value`; the unspecialized primary template has none, so referring to
`type_chooser<I, O>::value` for any other pair is a compile error, modelled
as `none`. -/
def type_chooser : CType → CType → Option cufftType
  | .cufftReal, .cufftComplex => some .CUFFT_R2C
  | .cufftComplex, .cufftReal => some .CUFFT_C2R
  | .cufftComplex, .cufftComplex => some .CUFFT_C2C
  | .cufftDoubleReal, .cufftDoubleComplex => some .CUFFT_D2Z
  | .cufftDoubleComplex, .cufftDoubleReal => some .CUFFT_Z2D
  | .cufftDoubleComplex, .cufftDoubleComplex => some .CUFFT_Z2Z
  | _, _ => none

/-- `detail::type_mapper<I>` (plan.h lines 48-52): maps each element type to
its paired real/complex counterpart; it is specialized for all four cuFFT
element types. -/
def type_mapper : CType → CType
  | .cufftReal => .cufftComplex
  | .cufftComplex => .cufftReal
  | .cufftDoubleReal => .cufftDoubleComplex
  | .cufftDoubleComplex => .cufftDoubleReal

/-- The six private `plan::cufft_exec` overloads name one native execute
routine each (plan.h lines 152-180). -/
inductive ExecRoutine where
  | cufftExecC2C
  | cufftExecZ2Z
  | cufftExecR2C
  | cufftExecD2Z
  | cufftExecC2R
  | cufftExecZ2D
  deriving DecidableEq

/-- The transform kind each native execute routine performs (the documented
pairing of cufftExecX2Y with CUFFT_X2Y). -/
def exec_kind : ExecRoutine → cufftType
  | .cufftExecC2C => .CUFFT_C2C
  | .cufftExecZ2Z => .CUFFT_Z2Z
  | .cufftExecR2C => .CUFFT_R2C
  | .cufftExecD2Z => .CUFFT_D2Z
  | .cufftExecC2R => .CUFFT_C2R
  | .cufftExecZ2D => .CUFFT_Z2D

/-- Overload resolution of the three-argument `cufft_exec(idata, odata,
direction)` calls (plan.h lines 152-160): only the (cufftComplex,
cufftComplex) and (cufftDoubleComplex, cufftDoubleComplex) overloads exist. -/
def cufft_exec_dir : CType → CType → Option ExecRoutine
  | .cufftComplex, .cufftComplex => some .cufftExecC2C
  | .cufftDoubleComplex, .cufftDoubleComplex => some .cufftExecZ2Z
  | _, _ => none

/-- Overload resolution of the two-argument `cufft_exec(idata, odata)` calls
(plan.h lines 162-180): the four directionless real/complex overloads. -/
def cufft_exec_nodir : CType → CType → Option ExecRoutine
  | .cufftReal, .cufftComplex => some .cufftExecR2C
  | .cufftDoubleReal, .cufftDoubleComplex => some .cufftExecD2Z
  | .cufftComplex, .cufftReal => some .cufftExecC2R
  | .cufftDoubleComplex, .cufftDoubleReal => some .cufftExecZ2D
  | _, _ => none

/-- The three static assertions of the directionless
`plan<t>::execute<I, O>(I*, O*)` (plan.h lines 110-112): the instantiation
compiles iff `!is_same<I, O>`, `type_chooser<I, O>::value == t` (a missing
`value` member is itself a compile error, hence the `some`), and
`is_same<O, type_mapper<I>::type>`. -/
def execute_accepted (t : cufftType) (i o : CType) : Bool :=
  decide (i ≠ o) && decide (type_chooser i o = some t) && decide (type_mapper i = o)

/-- The three static assertions of the directional
`plan<t>::execute<I, O>(I*, O*, int)` (plan.h lines 120-122): the
instantiation compiles iff `is_same<I, O>`, `type_chooser<I, O>::value == t`,
and `is_same<O, type_mapper<I>::type>`. -/
def execute_dir_accepted (t : cufftType) (i o : CType) : Bool :=
  decide (i = o) && decide (type_chooser i o = some t) && decide (type_mapper i = o)

/-- One call into the native cuFFT library, as issued by a `plan` member
function body. -/
inductive NativeCall where
  | cufftPlan1d (nx : Int) (type : cufftType) (batch : Int)
  | cufftPlan2d (nx ny : Int) (type : cufftType)
  | cufftPlan3d (nx ny nz : Int) (type : cufftType)
  | cufftPlanMany (rank : Int) (n : List Int) (inembed : Option (List Int))
      (istride idist : Int) (onembed : Option (List Int)) (ostride odist : Int)
      (type : cufftType) (batch : Int)
  | cufftDestroy (handle : cufftHandle)
  deriving DecidableEq

/-- The data members of `plan<type>` (plan.h lines 182-184), with their
in-class initializers. The transform kind is the compile-time template
argument. -/
structure plan (type : cufftType) where
  valid_ : Bool := false
  handle_ : cufftHandle := 0
  deriving DecidableEq

/-- `static constexpr auto transformation_type = type` (plan.h line 59). -/
def plan.transformation_type {type : cufftType} (_p : plan type) : cufftType := type

/-- The defaulted `plan()` constructor (plan.h line 61): both members keep
their in-class initializers. -/
def plan.mkDefault (type : cufftType) : plan type := {}

/-- `plan::get` (plan.h lines 102-105). -/
def plan.get {type : cufftType} (p : plan type) : cufftHandle := p.handle_

/-- `plan::~plan` (plan.h line 100): the native calls the destructor body
performs — `cufftDestroy(handle_)` iff `valid_`. -/
def plan.destruct {type : cufftType} (p : plan type) : List NativeCall :=
  if p.valid_ then [NativeCall.cufftDestroy p.handle_] else []

/-- The copy constructor (plan.h lines 74-76): copies both members, leaves
the source untouched, performs no native call. -/
def plan.copy_ctor {type : cufftType} (other : plan type) : plan type :=
  { handle_ := other.handle_, valid_ := other.valid_ }

/-- Copy assignment (plan.h lines 78-83): overwrites both members of the
target from the source; its body performs no native call (second component:
the empty call trace). -/
def plan.copy_assign {type : cufftType} (self other : plan type) :
    plan type × List NativeCall :=
  ({ self with handle_ := other.handle_, valid_ := other.valid_ }, [])

/-- The move constructor (plan.h lines 86-90): first component the newly
constructed plan, second the source after `other.valid_ = false`. No native
call is performed. -/
def plan.move_ctor {type : cufftType} (other : plan type) : plan type × plan type :=
  ({ handle_ := other.handle_, valid_ := other.valid_ },
   { other with valid_ := false })

/-- Move assignment (plan.h lines 92-98): overwrites the target from the
source and invalidates the source; its body performs no native call. Result:
((new target, new source), call trace). -/
def plan.move_assign {type : cufftType} (self other : plan type) :
    (plan type × plan type) × List NativeCall :=
  (({ self with handle_ := other.handle_, valid_ := other.valid_ },
    { other with valid_ := false }), [])

/-- The outcome of one native plan-creation call: the status it reports and
the handle it writes through its first argument. -/
structure NativeOutcome where
  res : cufftResult
  handle : cufftHandle
  deriving DecidableEq

/-- The 1-D sizing constructor `plan(int nx)` (plan.h line 62): sets
`valid_ = true`, calls `cufftPlan1d(&handle_, nx, transformation_type, 1)`,
then runs `handle_result` on the status; a thrown exception aborts
construction (Except.error). The second component is the native call trace. -/
def plan.ctor1d (type : cufftType) (nx : Int) (native : NativeOutcome) :
    Except cufftException (plan type) × List NativeCall :=
  ((match handle_result native.res with
    | none => .ok { valid_ := true, handle_ := native.handle }
    | some e => .error e),
   [NativeCall.cufftPlan1d nx type 1])

/-- The 2-D sizing constructor `plan(int nx, int ny)` (plan.h line 63). -/
def plan.ctor2d (type : cufftType) (nx ny : Int) (native : NativeOutcome) :
    Except cufftException (plan type) × List NativeCall :=
  ((match handle_result native.res with
    | none => .ok { valid_ := true, handle_ := native.handle }
    | some e => .error e),
   [NativeCall.cufftPlan2d nx ny type])

/-- The 3-D sizing constructor `plan(int nx, int ny, int nz)` (plan.h
line 64). -/
def plan.ctor3d (type : cufftType) (nx ny nz : Int) (native : NativeOutcome) :
    Except cufftException (plan type) × List NativeCall :=
  ((match handle_result native.res with
    | none => .ok { valid_ := true, handle_ := native.handle }
    | some e => .error e),
   [NativeCall.cufftPlan3d nx ny nz type])

/-- The advanced multi-transform constructor `plan(int rank, ...)` (plan.h
lines 66-72), forwarding all layout parameters to `cufftPlanMany`. -/
def plan.ctorMany (type : cufftType) (rank : Int) (n : List Int)
    (inembed : Option (List Int)) (istride idist : Int)
    (onembed : Option (List Int)) (ostride odist : Int) (batch : Int)
    (native : NativeOutcome) :
    Except cufftException (plan type) × List NativeCall :=
  ((match handle_result native.res with
    | none => .ok { valid_ := true, handle_ := native.handle }
    | some e => .error e),
   [NativeCall.cufftPlanMany rank n inembed istride idist onembed ostride odist type batch])

/-- The built-in CUDA `uint3` of block/thread identifiers: three unsigned int
components. -/
structure uint3 where
  x : Nat
  y : Nat
  z : Nat
  deriving DecidableEq

/-- 2^32: the modulus of C++ `unsigned int` arithmetic on the target. -/
def UINT_MOD : Nat := 2 ^ 32

/-- `ddrf::cuda::coord_x` (coordinates.h lines 8-11):
`blockIdx.x * blockDim.x + threadIdx.x` in unsigned int arithmetic (the
multiplication wraps, then the addition wraps). -/
def coord_x (blockIdx blockDim threadIdx : uint3) : Nat :=
  (blockIdx.x * blockDim.x % UINT_MOD + threadIdx.x) % UINT_MOD

/-- `ddrf::cuda::coord_y` (coordinates.h lines 13-16). -/
def coord_y (blockIdx blockDim threadIdx : uint3) : Nat :=
  (blockIdx.y * blockDim.y % UINT_MOD + threadIdx.y) % UINT_MOD

/-- `ddrf::cuda::coord_z` (coordinates.h lines 18-21). -/
def coord_z (blockIdx blockDim threadIdx : uint3) : Nat :=
  (blockIdx.z * blockDim.z % UINT_MOD + threadIdx.z) % UINT_MOD

/-- C1: contrary to the claim, the directional overload `execute(I*, O*,
direction)` is rejected at compile time for EVERY type pair, including
complex→complex and double-complex→double-complex: its first static
assertion requires `I = O` while its third requires `O =
type_mapper<I>::type`, and `type_mapper` always swaps the real/complex
pairing, so the two are jointly unsatisfiable. In particular a
`plan<CUFFT_C2C>` cannot call it on two `cufftComplex` pointers, although
the matching native routine `cufftExecC2C` exists in the overload set. -/
theorem c1_directional_execute_never_accepted :
    execute_dir_accepted .CUFFT_C2C .cufftComplex .cufftComplex = false ∧
    execute_dir_accepted .CUFFT_Z2Z .cufftDoubleComplex .cufftDoubleComplex = false ∧
    cufft_exec_dir .cufftComplex .cufftComplex = some .cufftExecC2C ∧
    cufft_exec_dir .cufftDoubleComplex .cufftDoubleComplex = some .cufftExecZ2Z ∧
    ∀ (t : cufftType) (i o : CType), execute_dir_accepted t i o = false := by
  refine ⟨rfl, rfl, rfl, rfl, ?_⟩
  intro t i o
  cases t <;> cases i <;> cases o <;> rfl

/-- C2: `handle_result` maps success to no error; invalid-plan,
invalid-value and invalid-size to invalid-argument; allocation-failed to
bad_alloc (never runtime-error); internal-error, exec-failed and
setup-failed to runtime-error; every other non-success status to the
fallback runtime-error; and every non-success status to exactly one of the
three kinds. -/
theorem c2_handle_result_taxonomy (res : cufftResult) :
    (res = CUFFT_SUCCESS → handle_result res = none) ∧
    (res ≠ CUFFT_SUCCESS → ∃ e, handle_result res = some e) ∧
    ((res = CUFFT_INVALID_PLAN ∨ res = CUFFT_INVALID_VALUE ∨ res = CUFFT_INVALID_SIZE) →
      ∃ m, handle_result res = some (.invalid_argument m)) ∧
    (res = CUFFT_ALLOC_FAILED → handle_result res = some .bad_alloc) ∧
    ((res = CUFFT_INTERNAL_ERROR ∨ res = CUFFT_EXEC_FAILED ∨ res = CUFFT_SETUP_FAILED) →
      ∃ m, handle_result res = some (.runtime_error m)) ∧
    (res ≠ CUFFT_SUCCESS ∧ res ≠ CUFFT_INVALID_PLAN ∧ res ≠ CUFFT_ALLOC_FAILED ∧
        res ≠ CUFFT_INVALID_VALUE ∧ res ≠ CUFFT_INTERNAL_ERROR ∧ res ≠ CUFFT_EXEC_FAILED ∧
        res ≠ CUFFT_SETUP_FAILED ∧ res ≠ CUFFT_INVALID_SIZE →
      handle_result res = some (.runtime_error "Unknown error.")) := by
  refine ⟨?_, ?_, ?_, ?_, ?_, ?_⟩
  · rintro rfl; rfl
  · intro h
    unfold handle_result
    split_ifs <;> first | exact absurd (by assumption) h | exact ⟨_, rfl⟩
  · rintro (rfl | rfl | rfl) <;> exact ⟨_, rfl⟩
  · rintro rfl; rfl
  · rintro (rfl | rfl | rfl) <;> exact ⟨_, rfl⟩
  · rintro ⟨h0, h1, h2, h3, h4, h5, h6, h7⟩
    unfold handle_result
    rw [if_neg h0, if_neg h1, if_neg h2, if_neg h3, if_neg h4, if_neg h5,
      if_neg h6, if_neg h7]

/-- C2 witness: the allocation-failed status surfaces as bad_alloc. -/
theorem c2_witness : handle_result CUFFT_ALLOC_FAILED = some .bad_alloc :=
  (c2_handle_result_taxonomy CUFFT_ALLOC_FAILED).2.2.2.1 rfl

/-- C3: the directionless overload `execute(I*, O*)` compiles exactly when
the input and output types differ, the pair maps under `type_chooser` to the
plan's transform kind, and the output is the `type_mapper` counterpart of
the input; and every accepted pair resolves to a directionless native
execute routine of that very transform kind. -/
theorem c3_directionless_execute_typecheck (t : cufftType) (i o : CType) :
    (execute_accepted t i o = true ↔
      (i ≠ o ∧ type_chooser i o = some t ∧ type_mapper i = o)) ∧
    (execute_accepted t i o = true →
      (cufft_exec_nodir i o).isSome = true ∧
        Option.map exec_kind (cufft_exec_nodir i o) = some t) := by
  cases t <;> cases i <;> cases o <;> decide

/-- C3 witness: a real→complex pair on an R2C plan is accepted and forwards
to cufftExecR2C. -/
theorem c3_witness :
    Option.map exec_kind (cufft_exec_nodir .cufftReal .cufftComplex) = some .CUFFT_R2C :=
  ((c3_directionless_execute_typecheck .CUFFT_R2C .cufftReal .cufftComplex).2
    (by decide)).2

/-- C4: moving from a valid plan (by move construction or move assignment)
leaves the source invalid and the destination valid with the source's former
handle, and destroying the invalidated source performs no cufftDestroy
call. -/
theorem c4_move_transfers_ownership {t : cufftType} (p q : plan t)
    (h : p.valid_ = true) :
    ((plan.move_ctor p).1.valid_ = true ∧
      (plan.move_ctor p).1.handle_ = p.handle_ ∧
      (plan.move_ctor p).2.valid_ = false ∧
      (plan.move_ctor p).2.destruct = []) ∧
    ((plan.move_assign q p).1.1.valid_ = true ∧
      (plan.move_assign q p).1.1.handle_ = p.handle_ ∧
      (plan.move_assign q p).1.2.valid_ = false ∧
      (plan.move_assign q p).1.2.destruct = []) := by
  simp [plan.move_ctor, plan.move_assign, plan.destruct, h]

/-- C4 witness: moving from the valid plan with handle 42. -/
theorem c4_witness :
    ((plan.move_ctor (⟨true, 42⟩ : plan .CUFFT_C2C)).1.handle_ = 42 ∧
      (plan.move_ctor (⟨true, 42⟩ : plan .CUFFT_C2C)).2.destruct = []) :=
  ⟨(c4_move_transfers_ownership ⟨true, 42⟩ ⟨false, 0⟩ rfl).1.2.1,
   (c4_move_transfers_ownership ⟨true, 42⟩ ⟨false, 0⟩ rfl).1.2.2.2⟩

/-- C5: the destructor of a valid plan performs exactly one cufftDestroy
call, on its own handle; the destructor of an invalid plan performs no
native call. -/
theorem c5_destructor_releases_once {t : cufftType} (p : plan t) :
    (p.valid_ = true → p.destruct = [NativeCall.cufftDestroy p.handle_]) ∧
    (p.valid_ ≠ true → p.destruct = []) := by
  constructor <;> intro h <;> simp [plan.destruct, h]

/-- C5 witness: a valid plan with handle 7 is destroyed with exactly one
cufftDestroy 7 call. -/
theorem c5_witness :
    (⟨true, 7⟩ : plan .CUFFT_R2C).destruct = [NativeCall.cufftDestroy 7] :=
  (c5_destructor_releases_once ⟨true, 7⟩).1 rfl

/-- C6: copying a valid plan (by copy construction or copy assignment)
yields a second plan with the same handle, also valid, while the source is
untouched; afterwards both plans would each issue cufftDestroy on the same
handle when destroyed. -/
theorem c6_copy_duplicates_ownership {t : cufftType} (p q : plan t)
    (h : p.valid_ = true) :
    ((plan.copy_ctor p).valid_ = true ∧
      (plan.copy_ctor p).handle_ = p.handle_ ∧
      (plan.copy_ctor p).destruct = [NativeCall.cufftDestroy p.handle_] ∧
      p.destruct = [NativeCall.cufftDestroy p.handle_]) ∧
    ((plan.copy_assign q p).1.valid_ = true ∧
      (plan.copy_assign q p).1.handle_ = p.handle_ ∧
      (plan.copy_assign q p).1.destruct = [NativeCall.cufftDestroy p.handle_]) := by
  simp [plan.copy_ctor, plan.copy_assign, plan.destruct, h]

/-- C6 witness: copying the valid plan with handle 11 leaves two plans that
both release handle 11. -/
theorem c6_witness :
    ((plan.copy_ctor (⟨true, 11⟩ : plan .CUFFT_Z2Z)).destruct =
        [NativeCall.cufftDestroy 11] ∧
      (⟨true, 11⟩ : plan .CUFFT_Z2Z).destruct = [NativeCall.cufftDestroy 11]) :=
  ⟨(c6_copy_duplicates_ownership ⟨true, 11⟩ ⟨false, 0⟩ rfl).1.2.2.1,
   (c6_copy_duplicates_ownership ⟨true, 11⟩ ⟨false, 0⟩ rfl).1.2.2.2⟩

/-- C7: whenever the native plan-creation call reports CUFFT_SUCCESS, each of
the four sizing constructors yields a valid plan whose compile-time
transform-kind tag equals the requested kind, and the recorded native
creation call carries exactly that kind. -/
theorem c7_ctors_valid_with_requested_kind (t : cufftType) (nx ny nz : Int)
    (rank : Int) (n : List Int) (inembed : Option (List Int)) (istride idist : Int)
    (onembed : Option (List Int)) (ostride odist : Int) (batch : Int)
    (native : NativeOutcome) (h : native.res = CUFFT_SUCCESS) :
    ((plan.ctor1d t nx native).1 =
        Except.ok { valid_ := true, handle_ := native.handle } ∧
      (plan.ctor1d t nx native).2 = [NativeCall.cufftPlan1d nx t 1]) ∧
    ((plan.ctor2d t nx ny native).1 =
        Except.ok { valid_ := true, handle_ := native.handle } ∧
      (plan.ctor2d t nx ny native).2 = [NativeCall.cufftPlan2d nx ny t]) ∧
    ((plan.ctor3d t nx ny nz native).1 =
        Except.ok { valid_ := true, handle_ := native.handle } ∧
      (plan.ctor3d t nx ny nz native).2 = [NativeCall.cufftPlan3d nx ny nz t]) ∧
    ((plan.ctorMany t rank n inembed istride idist onembed ostride odist batch native).1 =
        Except.ok { valid_ := true, handle_ := native.handle } ∧
      (plan.ctorMany t rank n inembed istride idist onembed ostride odist batch native).2 =
        [NativeCall.cufftPlanMany rank n inembed istride idist onembed ostride odist t batch]) ∧
    (plan.transformation_type { valid_ := true, handle_ := native.handle : plan t } = t) := by
  have hres : handle_result native.res = none := by rw [h]; rfl
  refine ⟨⟨?_, rfl⟩, ⟨?_, rfl⟩, ⟨?_, rfl⟩, ⟨?_, rfl⟩, rfl⟩ <;>
    simp [plan.ctor1d, plan.ctor2d, plan.ctor3d, plan.ctorMany, hres]

/-- C7 witness: a 1-D C2C plan of size 8 whose creation succeeds with
handle 5 is valid, tagged C2C, and the creation call passed CUFFT_C2C. -/
theorem c7_witness :
    (plan.ctor1d .CUFFT_C2C 8 ⟨CUFFT_SUCCESS, 5⟩).1 =
        Except.ok { valid_ := true, handle_ := 5 } ∧
      (plan.ctor1d .CUFFT_C2C 8 ⟨CUFFT_SUCCESS, 5⟩).2 =
        [NativeCall.cufftPlan1d 8 .CUFFT_C2C 1] :=
  (c7_ctors_valid_with_requested_kind .CUFFT_C2C 8 0 0 0 [] none 0 0 none 0 0 0
    ⟨CUFFT_SUCCESS, 5⟩ rfl).1

/-- C8: each coordinate helper returns exactly
block_index * block_extent + thread_index for its own axis (the value modulo
2^32 in general, the exact sum whenever it fits an unsigned int), and reads
nothing but the three identifiers of that axis. Side effects cannot occur:
the helpers are total functions of their arguments. -/
theorem c8_coordinate_helpers (blockIdx blockDim threadIdx : uint3) :
    (coord_x blockIdx blockDim threadIdx =
        (blockIdx.x * blockDim.x + threadIdx.x) % UINT_MOD ∧
      coord_y blockIdx blockDim threadIdx =
        (blockIdx.y * blockDim.y + threadIdx.y) % UINT_MOD ∧
      coord_z blockIdx blockDim threadIdx =
        (blockIdx.z * blockDim.z + threadIdx.z) % UINT_MOD) ∧
    ((blockIdx.x * blockDim.x + threadIdx.x < UINT_MOD →
        coord_x blockIdx blockDim threadIdx =
          blockIdx.x * blockDim.x + threadIdx.x) ∧
      (blockIdx.y * blockDim.y + threadIdx.y < UINT_MOD →
        coord_y blockIdx blockDim threadIdx =
          blockIdx.y * blockDim.y + threadIdx.y) ∧
      (blockIdx.z * blockDim.z + threadIdx.z < UINT_MOD →
        coord_z blockIdx blockDim threadIdx =
          blockIdx.z * blockDim.z + threadIdx.z)) ∧
    (∀ b d th : uint3,
      (b.x = blockIdx.x → d.x = blockDim.x → th.x = threadIdx.x →
        coord_x b d th = coord_x blockIdx blockDim threadIdx) ∧
      (b.y = blockIdx.y → d.y = blockDim.y → th.y = threadIdx.y →
        coord_y b d th = coord_y blockIdx blockDim threadIdx) ∧
      (b.z = blockIdx.z → d.z = blockDim.z → th.z = threadIdx.z →
        coord_z b d th = coord_z blockIdx blockDim threadIdx)) := by
  refine ⟨⟨?_, ?_, ?_⟩, ⟨?_, ?_, ?_⟩, ?_⟩
  · simp only [coord_x, UINT_MOD]; omega
  · simp only [coord_y, UINT_MOD]; omega
  · simp only [coord_z, UINT_MOD]; omega
  · intro hlt
    simp only [UINT_MOD] at hlt
    simp only [coord_x, UINT_MOD]
    omega
  · intro hlt
    simp only [UINT_MOD] at hlt
    simp only [coord_y, UINT_MOD]
    omega
  · intro hlt
    simp only [UINT_MOD] at hlt
    simp only [coord_z, UINT_MOD]
    omega
  · intro b d th
    refine ⟨?_, ?_, ?_⟩ <;> intro h1 h2 h3 <;>
      simp only [coord_x, coord_y, coord_z, h1, h2, h3]

/-- C8 witness: block 2, block extent 3, thread 4 gives global index 10 on
the x axis. -/
theorem c8_witness : coord_x ⟨2, 0, 0⟩ ⟨3, 0, 0⟩ ⟨4, 0, 0⟩ = 2 * 3 + 4 :=
  (c8_coordinate_helpers ⟨2, 0, 0⟩ ⟨3, 0, 0⟩ ⟨4, 0, 0⟩).2.1.1 (by decide)

/-- C9: a default-constructed plan is invalid with handle 0, get() returns
0, and its destructor performs no cufftDestroy call; in particular the
validity flag is not true without a resource having been acquired. -/
theorem c9_default_ctor_invalid (t : cufftType) :
    (plan.mkDefault t).valid_ = false ∧
    (plan.mkDefault t).handle_ = 0 ∧
    (plan.mkDefault t).get = 0 ∧
    (plan.mkDefault t).destruct = [] :=
  ⟨rfl, rfl, rfl, rfl⟩

/-- C10: assigning (by copy or by move) over a plan that is currently valid
performs no native call at all — in particular no cufftDestroy — while its
handle and validity flag are overwritten with the source's values, so the
previously owned resource is never released through the target. -/
theorem c10_assignment_never_releases_target {t : cufftType} (q p : plan t)
    (_h : q.valid_ = true) :
    ((plan.copy_assign q p).2 = [] ∧
      (plan.copy_assign q p).1.handle_ = p.handle_ ∧
      (plan.copy_assign q p).1.valid_ = p.valid_) ∧
    ((plan.move_assign q p).2 = [] ∧
      (plan.move_assign q p).1.1.handle_ = p.handle_ ∧
      (plan.move_assign q p).1.1.valid_ = p.valid_) := by
  simp [plan.copy_assign, plan.move_assign]

/-- C10 witness: overwriting the valid plan with handle 3 by the plan with
handle 9 performs no native call. -/
theorem c10_witness :
    (plan.copy_assign (⟨true, 3⟩ : plan .CUFFT_D2Z) ⟨true, 9⟩).2 = [] ∧
      (plan.copy_assign (⟨true, 3⟩ : plan .CUFFT_D2Z) ⟨true, 9⟩).1.handle_ = 9 :=
  ⟨(c10_assignment_never_releases_target ⟨true, 3⟩ ⟨true, 9⟩ rfl).1.1,
   (c10_assignment_never_releases_target ⟨true, 3⟩ ⟨true, 9⟩ rfl).1.2.1⟩
